import Mathlib

/-!
Shallow embedding of `modules/audio_processing/include/audio_processing.h`
(WebRTC M79 audio processing module public interface), together with proofs
about the stream-geometry types, runtime settings, configuration struct and
error/ rate enumerations declared there.

Modelling conventions:
* C++ `int` is modelled as unbounded `Int`; all arithmetic the theorems touch
  stays far inside the 32-bit range, so signed overflow (undefined behaviour
  in C++) never occurs on the modelled inputs.
* C++ `size_t` is modelled as `Nat`; a `static_cast<size_t>` of a signed value
  reduces the value modulo `2 ^ 64` (LP64 platform).
* C++ signed integer division truncates toward zero; this is `Int.tdiv`.
* `float` payloads are only ever stored and read back verbatim (no float
  arithmetic happens in the embedded code); such values are modelled as `Rat`.
  The sole conversion, `static_cast<float>(int)` on values in `[0, 90]`, is
  exact and modelled as the `Int → Rat` coercion.
* `RTC_DCHECK` validation in factory functions is modelled by returning
  `Option`: `none` models the assertion firing on invalid input.
-/

namespace Webrtc

/-- Width of `size_t` on the modelled LP64 platform. -/
def sizeTMod : Int := 2 ^ 64

/-- `static_cast<size_t>(x)` for a signed `x`: reduction modulo `2 ^ 64`. -/
def toSizeT (x : Int) : Nat := (x % sizeTMod).toNat

/-- `AudioProcessing::kChunkSizeMs = 10`: the fixed 10 ms chunk size. -/
def AudioProcessing.kChunkSizeMs : Int := 10

/-- `StreamConfig`: sample rate, channel count (excluding any keyboard
channel), keyboard-channel flag, and the derived per-channel frame count.
The private field `num_frames_` is part of the state, exactly as in the
class. -/
structure StreamConfig where
  sample_rate_hz : Int
  num_channels : Nat
  has_keyboard : Bool
  num_frames : Nat
  deriving DecidableEq, Repr

/-- `StreamConfig::calculate_frames`:
`static_cast<size_t>(AudioProcessing::kChunkSizeMs * sample_rate_hz / 1000)`
with C++ truncating signed division. -/
def StreamConfig.calculate_frames (sample_rate_hz : Int) : Nat :=
  toSizeT ((AudioProcessing.kChunkSizeMs * sample_rate_hz).tdiv 1000)

/-- The `StreamConfig` constructor: stores the three parameters and derives
`num_frames_ = calculate_frames(sample_rate_hz)`. -/
def StreamConfig.create (sample_rate_hz : Int) (num_channels : Nat)
    (has_keyboard : Bool) : StreamConfig :=
  { sample_rate_hz := sample_rate_hz
    num_channels := num_channels
    has_keyboard := has_keyboard
    num_frames := StreamConfig.calculate_frames sample_rate_hz }

/-- `StreamConfig::set_sample_rate_hz`: stores the value and recomputes
`num_frames_`. -/
def StreamConfig.set_sample_rate_hz (sc : StreamConfig) (value : Int) :
    StreamConfig :=
  { sc with
    sample_rate_hz := value
    num_frames := StreamConfig.calculate_frames value }

/-- `StreamConfig::set_num_channels`. -/
def StreamConfig.set_num_channels (sc : StreamConfig) (value : Nat) :
    StreamConfig :=
  { sc with num_channels := value }

/-- `StreamConfig::set_has_keyboard`. -/
def StreamConfig.set_has_keyboard (sc : StreamConfig) (value : Bool) :
    StreamConfig :=
  { sc with has_keyboard := value }

/-- `StreamConfig::num_samples`: `num_channels_ * num_frames_`. -/
def StreamConfig.num_samples (sc : StreamConfig) : Nat :=
  sc.num_channels * sc.num_frames

/-- `StreamConfig::operator==`: compares the sample rate, channel count and
keyboard flag (`num_frames_` is not compared). -/
def StreamConfig.beq (a b : StreamConfig) : Bool :=
  a.sample_rate_hz == b.sample_rate_hz &&
  a.num_channels == b.num_channels &&
  a.has_keyboard == b.has_keyboard

/-- `StreamConfig::operator!=`: `!(*this == other)`. -/
def StreamConfig.bne (a b : StreamConfig) : Bool := !(StreamConfig.beq a b)

/-- The `StreamConfig` values reachable from the public interface: any
constructor call followed by any sequence of the three setters. -/
inductive StreamConfig.Reachable : StreamConfig → Prop where
  | create (r : Int) (ch : Nat) (kb : Bool) :
      StreamConfig.Reachable (StreamConfig.create r ch kb)
  | set_rate (sc : StreamConfig) (v : Int) : StreamConfig.Reachable sc →
      StreamConfig.Reachable (sc.set_sample_rate_hz v)
  | set_channels (sc : StreamConfig) (v : Nat) : StreamConfig.Reachable sc →
      StreamConfig.Reachable (sc.set_num_channels v)
  | set_keyboard (sc : StreamConfig) (v : Bool) : StreamConfig.Reachable sc →
      StreamConfig.Reachable (sc.set_has_keyboard v)

/-- `ProcessingConfig`: an array of four `StreamConfig` slots indexed by
`StreamName` (input, output, reverse input, reverse output). -/
structure ProcessingConfig where
  streams : Fin 4 → StreamConfig

/-- `ProcessingConfig::input_stream()`: slot `kInputStream = 0`. -/
def ProcessingConfig.input_stream (pc : ProcessingConfig) : StreamConfig :=
  pc.streams 0

/-- `ProcessingConfig::output_stream()`: slot `kOutputStream = 1`. -/
def ProcessingConfig.output_stream (pc : ProcessingConfig) : StreamConfig :=
  pc.streams 1

/-- `ProcessingConfig::reverse_input_stream()`: slot `kReverseInputStream = 2`. -/
def ProcessingConfig.reverse_input_stream (pc : ProcessingConfig) : StreamConfig :=
  pc.streams 2

/-- `ProcessingConfig::reverse_output_stream()`: slot `kReverseOutputStream = 3`. -/
def ProcessingConfig.reverse_output_stream (pc : ProcessingConfig) : StreamConfig :=
  pc.streams 3

/-- `ProcessingConfig::operator==`: loops over the four slots and returns
`false` as soon as one pair compares unequal under `StreamConfig`'s
`operator!=`. -/
def ProcessingConfig.beq (a b : ProcessingConfig) : Bool :=
  (List.finRange 4).all fun i => !(StreamConfig.bne (a.streams i) (b.streams i))

/-- `ProcessingConfig::operator!=`: `!(*this == other)`. -/
def ProcessingConfig.bne (a b : ProcessingConfig) : Bool :=
  !(ProcessingConfig.beq a b)

/-- `AudioProcessing::RuntimeSetting::Type` (named `Kind` here because `Type`
is reserved in Lean). -/
inductive RuntimeSetting.Kind where
  | kNotSpecified
  | kCapturePreGain
  | kCaptureCompressionGain
  | kCaptureFixedPostGain
  | kPlayoutVolumeChange
  | kCustomRenderProcessingRuntimeSetting
  deriving DecidableEq, Repr

/-- The payload union `RuntimeSetting::U`: one storage slot that was last
written either as a `float` or as an `int`. -/
inductive RuntimeSetting.U where
  | float_value : Rat → RuntimeSetting.U
  | int_value : Int → RuntimeSetting.U
  deriving DecidableEq, Repr

/-- `AudioProcessing::RuntimeSetting`: tagged payload `{type_, value_}`. -/
structure RuntimeSetting where
  type_ : RuntimeSetting.Kind
  value_ : RuntimeSetting.U
  deriving DecidableEq, Repr

/-- `RuntimeSetting::type()`. -/
def RuntimeSetting.type (s : RuntimeSetting) : RuntimeSetting.Kind := s.type_

/-- `RuntimeSetting::GetFloat`: reads `value_.float_value`. Reading the union
member that was not last written is undefined behaviour in C++; that case is
modelled as `none`. -/
def RuntimeSetting.GetFloat (s : RuntimeSetting) : Option Rat :=
  match s.value_ with
  | .float_value v => some v
  | .int_value _ => none

/-- `RuntimeSetting::GetInt`: reads `value_.int_value`; the inactive-member
case is modelled as `none`. -/
def RuntimeSetting.GetInt (s : RuntimeSetting) : Option Int :=
  match s.value_ with
  | .float_value _ => none
  | .int_value v => some v

/-- `RuntimeSetting::CreateCapturePreGain`:
`RTC_DCHECK_GE(gain, 1.f)` ("Attenuation is not allowed"), then
`{Type::kCapturePreGain, gain}`. -/
def RuntimeSetting.CreateCapturePreGain (gain : Rat) : Option RuntimeSetting :=
  if 1 ≤ gain then
    some { type_ := .kCapturePreGain, value_ := .float_value gain }
  else none

/-- `RuntimeSetting::CreateCompressionGainDb`:
`RTC_DCHECK_GE(gain_db, 0)` and `RTC_DCHECK_LE(gain_db, 90)`, then
`{Type::kCaptureCompressionGain, static_cast<float>(gain_db)}` (the cast is
exact on `[0, 90]`). -/
def RuntimeSetting.CreateCompressionGainDb (gain_db : Int) :
    Option RuntimeSetting :=
  if 0 ≤ gain_db ∧ gain_db ≤ 90 then
    some { type_ := .kCaptureCompressionGain
           value_ := .float_value (gain_db : Rat) }
  else none

/-- `RuntimeSetting::CreateCaptureFixedPostGain`:
`RTC_DCHECK_GE(gain_db, 0.f)` and `RTC_DCHECK_LE(gain_db, 90.f)`, then
`{Type::kCaptureFixedPostGain, gain_db}`. -/
def RuntimeSetting.CreateCaptureFixedPostGain (gain_db : Rat) :
    Option RuntimeSetting :=
  if 0 ≤ gain_db ∧ gain_db ≤ 90 then
    some { type_ := .kCaptureFixedPostGain, value_ := .float_value gain_db }
  else none

/-- `RuntimeSetting::CreatePlayoutVolumeChange`: no validation,
`{Type::kPlayoutVolumeChange, volume}` with an `int` payload. -/
def RuntimeSetting.CreatePlayoutVolumeChange (volume : Int) : RuntimeSetting :=
  { type_ := .kPlayoutVolumeChange, value_ := .int_value volume }

/-- `RuntimeSetting::CreateCustomRenderSetting`: no validation,
`{Type::kCustomRenderProcessingRuntimeSetting, payload}`. -/
def RuntimeSetting.CreateCustomRenderSetting (payload : Rat) : RuntimeSetting :=
  { type_ := .kCustomRenderProcessingRuntimeSetting
    value_ := .float_value payload }

/-- `AudioProcessing::Error`: the closed error-code enumeration. -/
inductive AudioProcessing.Error where
  | kNoError
  | kUnspecifiedError
  | kCreationFailedError
  | kUnsupportedComponentError
  | kUnsupportedFunctionError
  | kNullPointerError
  | kBadParameterError
  | kBadSampleRateError
  | kBadDataLengthError
  | kBadNumberChannelsError
  | kFileError
  | kStreamParameterNotSetError
  | kNotEnabledError
  | kBadStreamParameterWarning
  deriving DecidableEq, Repr, Fintype

/-- The integer value assigned to each `AudioProcessing::Error` enumerator in
the source. -/
def AudioProcessing.Error.toInt : AudioProcessing.Error → Int
  | .kNoError => 0
  | .kUnspecifiedError => -1
  | .kCreationFailedError => -2
  | .kUnsupportedComponentError => -3
  | .kUnsupportedFunctionError => -4
  | .kNullPointerError => -5
  | .kBadParameterError => -6
  | .kBadSampleRateError => -7
  | .kBadDataLengthError => -8
  | .kBadNumberChannelsError => -9
  | .kFileError => -10
  | .kStreamParameterNotSetError => -11
  | .kNotEnabledError => -12
  | .kBadStreamParameterWarning => -13

/-- The enumerators listed under the `// Fatal errors.` comment, other than
the success code `kNoError`. -/
def AudioProcessing.Error.fatalErrors : List AudioProcessing.Error :=
  [.kUnspecifiedError, .kCreationFailedError, .kUnsupportedComponentError,
   .kUnsupportedFunctionError, .kNullPointerError, .kBadParameterError,
   .kBadSampleRateError, .kBadDataLengthError, .kBadNumberChannelsError,
   .kFileError, .kStreamParameterNotSetError, .kNotEnabledError]

/-- `AudioProcessing::NativeRate` enumerator values. -/
def AudioProcessing.kSampleRate8kHz : Int := 8000

/-- `kSampleRate16kHz = 16000`. -/
def AudioProcessing.kSampleRate16kHz : Int := 16000

/-- `kSampleRate32kHz = 32000`. -/
def AudioProcessing.kSampleRate32kHz : Int := 32000

/-- `kSampleRate48kHz = 48000`. -/
def AudioProcessing.kSampleRate48kHz : Int := 48000

/-- `AudioProcessing::kNativeSampleRatesHz`: the array
`{kSampleRate8kHz, kSampleRate16kHz, kSampleRate32kHz, kSampleRate48kHz}`. -/
def AudioProcessing.kNativeSampleRatesHz : List Int :=
  [AudioProcessing.kSampleRate8kHz, AudioProcessing.kSampleRate16kHz,
   AudioProcessing.kSampleRate32kHz, AudioProcessing.kSampleRate48kHz]

/-- `AudioProcessing::kNumNativeSampleRates = arraysize(kNativeSampleRatesHz)`. -/
def AudioProcessing.kNumNativeSampleRates : Nat :=
  AudioProcessing.kNativeSampleRatesHz.length

/-- `AudioProcessing::kMaxNativeSampleRateHz =
kNativeSampleRatesHz[kNumNativeSampleRates - 1]`. -/
def AudioProcessing.kMaxNativeSampleRateHz : Int :=
  AudioProcessing.kNativeSampleRatesHz.getD
    (AudioProcessing.kNumNativeSampleRates - 1) 0

/-- `Config::Pipeline`. Its default constructor `Pipeline()` is declared in
the header but defined out of line (not in this repository); see
`Config.Pipeline.default`. -/
structure Config.Pipeline where
  maximum_internal_processing_rate : Int
  experimental_multi_channel : Bool := false
  deriving DecidableEq, Repr

/-- Modelled from the spec: the out-of-line body of `Config::Pipeline::Pipeline()`
is not in this repository; per the header comment the default
`maximum_internal_processing_rate` "is currently selected based on the CPU
architecture", so it is taken as a parameter here, while
`experimental_multi_channel` defaults to `false` as written in the header. -/
def Config.Pipeline.default (rate : Int) : Config.Pipeline :=
  { maximum_internal_processing_rate := rate }

/-- `Config::PreAmplifier`. -/
structure Config.PreAmplifier where
  enabled : Bool := false
  fixed_gain_factor : Rat := 1
  deriving DecidableEq, Repr

/-- `Config::HighPassFilter`. -/
structure Config.HighPassFilter where
  enabled : Bool := false
  deriving DecidableEq, Repr

/-- `Config::EchoCanceller`. -/
structure Config.EchoCanceller where
  enabled : Bool := false
  mobile_mode : Bool := false
  legacy_moderate_suppression_level : Bool := false
  use_legacy_aec : Bool := false
  deriving DecidableEq, Repr

/-- `Config::NoiseSuppression::Level`. -/
inductive Config.NoiseSuppression.Level where
  | kLow
  | kModerate
  | kHigh
  | kVeryHigh
  deriving DecidableEq, Repr

/-- `Config::NoiseSuppression`. -/
structure Config.NoiseSuppression where
  enabled : Bool := false
  level : Config.NoiseSuppression.Level := .kModerate
  deriving DecidableEq, Repr

/-- `Config::VoiceDetection`. -/
structure Config.VoiceDetection where
  enabled : Bool := false
  deriving DecidableEq, Repr

/-- `Config::GainController1::Mode`. -/
inductive Config.GainController1.Mode where
  | kAdaptiveAnalog
  | kAdaptiveDigital
  | kFixedDigital
  deriving DecidableEq, Repr

/-- `Config::GainController1`. -/
structure Config.GainController1 where
  enabled : Bool := false
  mode : Config.GainController1.Mode := .kAdaptiveAnalog
  target_level_dbfs : Int := 3
  compression_gain_db : Int := 9
  enable_limiter : Bool := true
  analog_level_minimum : Int := 0
  analog_level_maximum : Int := 255
  deriving DecidableEq, Repr

/-- `Config::GainController2::LevelEstimator`. -/
inductive Config.GainController2.LevelEstimator where
  | kRms
  | kPeak
  deriving DecidableEq, Repr

/-- The anonymous `fixed_digital` sub-struct of `Config::GainController2`. -/
structure Config.GainController2.FixedDigital where
  gain_db : Rat := 0
  deriving DecidableEq, Repr

/-- The anonymous `adaptive_digital` sub-struct of `Config::GainController2`. -/
structure Config.GainController2.AdaptiveDigital where
  enabled : Bool := false
  level_estimator : Config.GainController2.LevelEstimator := .kRms
  use_saturation_protector : Bool := true
  extra_saturation_margin_db : Rat := 2
  deriving DecidableEq, Repr

/-- `Config::GainController2`. -/
structure Config.GainController2 where
  enabled : Bool := false
  fixed_digital : Config.GainController2.FixedDigital := {}
  adaptive_digital : Config.GainController2.AdaptiveDigital := {}
  deriving DecidableEq, Repr

/-- `Config::ResidualEchoDetector`. -/
structure Config.ResidualEchoDetector where
  enabled : Bool := true
  deriving DecidableEq, Repr

/-- `Config::LevelEstimation`. -/
structure Config.LevelEstimation where
  enabled : Bool := false
  deriving DecidableEq, Repr

/-- `AudioProcessing::Config`: one sub-block per stage plus the pipeline-wide
knobs. -/
structure Config where
  pipeline : Config.Pipeline
  pre_amplifier : Config.PreAmplifier := {}
  high_pass_filter : Config.HighPassFilter := {}
  echo_canceller : Config.EchoCanceller := {}
  noise_suppression : Config.NoiseSuppression := {}
  voice_detection : Config.VoiceDetection := {}
  gain_controller1 : Config.GainController1 := {}
  gain_controller2 : Config.GainController2 := {}
  residual_echo_detector : Config.ResidualEchoDetector := {}
  level_estimation : Config.LevelEstimation := {}
  deriving DecidableEq, Repr

/-- `Config() = default`: every member takes its in-header default; the
pipeline block is built by `Pipeline()`, whose architecture-dependent rate is
the parameter (see `Config.Pipeline.default`). -/
def Config.default (rate : Int) : Config :=
  { pipeline := Config.Pipeline.default rate }

/-- `Config::operator=`: after a `this != &config` self-assignment guard it
does `memcpy(this, &config, sizeof(*this))` — the struct is trivially
copyable, so this replaces every field of the destination with the source's.
When source and destination are the same object the guard skips the copy,
which on values is also the identity, so the guard does not change the
value-level result. -/
def Config.assign (_dest src : Config) : Config :=
  { pipeline := src.pipeline
    pre_amplifier := src.pre_amplifier
    high_pass_filter := src.high_pass_filter
    echo_canceller := src.echo_canceller
    noise_suppression := src.noise_suppression
    voice_detection := src.voice_detection
    gain_controller1 := src.gain_controller1
    gain_controller2 := src.gain_controller2
    residual_echo_detector := src.residual_echo_detector
    level_estimation := src.level_estimation }

/-- Modelled from the spec: `AudioProcessing::ApplyConfig` and
`AudioProcessing::GetConfig` are pure virtual in this repository (their
implementation lives elsewhere). Per the spec the config is "Copied atomically
(whole-struct replace) on ApplyConfig" and "read back verbatim via a getter";
the orchestrator's stored config is the relevant state. -/
structure ApmState where
  config : Config

/-- Modelled from the spec: `ApplyConfig(C)` replaces the stored config with
`C` by whole-struct assignment (`Config.assign`, i.e. `Config::operator=`). -/
def ApmState.ApplyConfig (st : ApmState) (c : Config) : ApmState :=
  { st with config := Config.assign st.config c }

/-- Modelled from the spec: `GetConfig()` "Returns the last applied
configuration". -/
def ApmState.GetConfig (st : ApmState) : Config := st.config

/-- The full list of `AudioProcessing::Error` enumerators, in declaration
order. -/
def AudioProcessing.Error.allErrors : List AudioProcessing.Error :=
  [.kNoError, .kUnspecifiedError, .kCreationFailedError,
   .kUnsupportedComponentError, .kUnsupportedFunctionError,
   .kNullPointerError, .kBadParameterError, .kBadSampleRateError,
   .kBadDataLengthError, .kBadNumberChannelsError, .kFileError,
   .kStreamParameterNotSetError, .kNotEnabledError,
   .kBadStreamParameterWarning]

end Webrtc

open Webrtc

/-- C1: for every `StreamConfig` reachable through the constructor and any
sequence of the setters `set_sample_rate_hz`, `set_num_channels` and
`set_has_keyboard`, `num_frames()` equals
`kChunkSizeMs * sample_rate_hz / 1000` (C++ truncating division, result cast
to `size_t`) at the current sample rate; for nonnegative in-range rates this
is exactly 10 ms worth of samples; and the sample-rate setter recomputes the
frame count. -/
theorem streamConfig_num_frames_ten_ms_invariant (sc : StreamConfig)
    (h : sc.Reachable) :
    sc.num_frames =
      toSizeT ((AudioProcessing.kChunkSizeMs * sc.sample_rate_hz).tdiv 1000) ∧
    (0 ≤ sc.sample_rate_hz → sc.sample_rate_hz ≤ 2 ^ 31 →
      (sc.num_frames : Int) =
        (AudioProcessing.kChunkSizeMs * sc.sample_rate_hz).tdiv 1000) ∧
    (∀ v : Int, (sc.set_sample_rate_hz v).num_frames =
      StreamConfig.calculate_frames v) := by
  have hmain : sc.num_frames =
      toSizeT ((AudioProcessing.kChunkSizeMs * sc.sample_rate_hz).tdiv 1000) := by
    induction h with
    | create r ch kb => rfl
    | set_rate sc v _ _ => rfl
    | set_channels sc v _ ih => exact ih
    | set_keyboard sc v _ ih => exact ih
  refine ⟨hmain, ?_, fun _ => rfl⟩
  intro hpos hle
  have h2 : (AudioProcessing.kChunkSizeMs * sc.sample_rate_hz).tdiv 1000 =
      (10 * sc.sample_rate_hz) / 1000 := by
    show (10 * sc.sample_rate_hz).tdiv 1000 = (10 * sc.sample_rate_hz) / 1000
    exact Int.tdiv_eq_ediv (by omega) (by omega)
  have h3 : sc.num_frames =
      ((10 * sc.sample_rate_hz) / 1000 % (2 ^ 64 : Int)).toNat := by
    rw [hmain]; show ((_ : Int).tdiv 1000 % sizeTMod).toNat = _
    rw [h2]; rfl
  rw [h3, h2]
  have h64 : (2 : Int) ^ 64 = 18446744073709551616 := by norm_num
  have h31 : (2 : Int) ^ 31 = 2147483648 := by norm_num
  rw [h64] at *
  rw [h31] at hle
  omega

/-- Witness for C1 at the concrete reachable value
`StreamConfig(8000, 1, false)` followed by `set_num_channels(2)` and
`set_sample_rate_hz(48000)`: the invariant holds and evaluates to 480
frames. -/
theorem streamConfig_num_frames_ten_ms_invariant_witness :
    (((StreamConfig.create 8000 1 false).set_num_channels 2).set_sample_rate_hz
        48000).num_frames =
      toSizeT ((AudioProcessing.kChunkSizeMs *
        (((StreamConfig.create 8000 1 false).set_num_channels
          2).set_sample_rate_hz 48000).sample_rate_hz).tdiv 1000) ∧
    (((StreamConfig.create 8000 1 false).set_num_channels 2).set_sample_rate_hz
        48000).num_frames = 480 :=
  ⟨(streamConfig_num_frames_ten_ms_invariant _
      (.set_rate _ 48000 (.set_channels _ 2 (.create 8000 1 false)))).1,
    by decide⟩

/-- C3: `ProcessingConfig::operator==` returns true iff all four stream slots
(input, output, reverse input, reverse output) agree on sample rate, channel
count and keyboard flag, and `operator!=` is the exact negation of
`operator==` for both `StreamConfig` and `ProcessingConfig`. -/
theorem processingConfig_equality_componentwise (a b : ProcessingConfig)
    (sa sb : StreamConfig) :
    (ProcessingConfig.beq a b = true ↔
      ((a.input_stream.sample_rate_hz = b.input_stream.sample_rate_hz ∧
        a.input_stream.num_channels = b.input_stream.num_channels ∧
        a.input_stream.has_keyboard = b.input_stream.has_keyboard) ∧
       (a.output_stream.sample_rate_hz = b.output_stream.sample_rate_hz ∧
        a.output_stream.num_channels = b.output_stream.num_channels ∧
        a.output_stream.has_keyboard = b.output_stream.has_keyboard) ∧
       (a.reverse_input_stream.sample_rate_hz =
          b.reverse_input_stream.sample_rate_hz ∧
        a.reverse_input_stream.num_channels =
          b.reverse_input_stream.num_channels ∧
        a.reverse_input_stream.has_keyboard =
          b.reverse_input_stream.has_keyboard) ∧
       (a.reverse_output_stream.sample_rate_hz =
          b.reverse_output_stream.sample_rate_hz ∧
        a.reverse_output_stream.num_channels =
          b.reverse_output_stream.num_channels ∧
        a.reverse_output_stream.has_keyboard =
          b.reverse_output_stream.has_keyboard))) ∧
    StreamConfig.bne sa sb = !(StreamConfig.beq sa sb) ∧
    ProcessingConfig.bne a b = !(ProcessingConfig.beq a b) := by
  refine ⟨?_, rfl, rfl⟩
  have hfr : (List.finRange 4 : List (Fin 4)) = [0, 1, 2, 3] := by decide
  simp only [ProcessingConfig.beq, ProcessingConfig.input_stream,
    ProcessingConfig.output_stream, ProcessingConfig.reverse_input_stream,
    ProcessingConfig.reverse_output_stream, StreamConfig.bne,
    StreamConfig.beq, hfr, List.all_cons, List.all_nil,
    Bool.not_not, Bool.and_eq_true, beq_iff_eq, and_true]
  tauto

/-- C10 counterexample: at `sample_rate_hz = -50` the value is stored
unchanged, but `kChunkSizeMs * (-50) / 1000 = -500 / 1000` truncates to `0`,
not to a negative value, so `num_frames()` is `0` rather than a huge wrapped
unsigned count. -/
theorem streamConfig_negative_rate_counterexample :
    (StreamConfig.create (-50) 1 false).sample_rate_hz = -50 ∧
    ¬ ((AudioProcessing.kChunkSizeMs * (-50 : Int)).tdiv 1000 < 0) ∧
    (StreamConfig.create (-50) 1 false).num_frames = 0 ∧
    ¬ (2 ^ 63 ≤ (StreamConfig.create (-50) 1 false).num_frames) := by
  refine ⟨rfl, by decide, rfl, by decide⟩

/-- C10 (amended): the constructor and `set_sample_rate_hz` store any
negative `sample_rate_hz` unchanged, with no validation, and `num_frames()`
evaluates `kChunkSizeMs * sample_rate_hz / 1000` with C++
truncation-toward-zero division and casts the result to `size_t`. For rates
at most `-100` the quotient is negative and wraps modulo `2 ^ 64` to a huge
frame count (at least `2 ^ 63`); for rates in `[-99, -1]` the quotient
truncates to `0`, so `num_frames()` is `0`. The lower bound on the rate keeps
`10 * rate` inside the `int` range, where the C++ arithmetic is defined. -/
theorem streamConfig_negative_rate_wraps (r : Int) (ch : Nat) (kb : Bool)
    (sc : StreamConfig) (hneg : r < 0) (hlo : -214748364 ≤ r) :
    (StreamConfig.create r ch kb).sample_rate_hz = r ∧
    (sc.set_sample_rate_hz r).sample_rate_hz = r ∧
    (StreamConfig.create r ch kb).num_frames =
      toSizeT ((AudioProcessing.kChunkSizeMs * r).tdiv 1000) ∧
    (sc.set_sample_rate_hz r).num_frames =
      (StreamConfig.create r ch kb).num_frames ∧
    (r ≤ -100 → 2 ^ 63 ≤ (StreamConfig.create r ch kb).num_frames) ∧
    (-100 < r → (StreamConfig.create r ch kb).num_frames = 0) := by
  have htd : (AudioProcessing.kChunkSizeMs * r).tdiv 1000 =
      -((-(10 * r)) / 1000) := by
    have h2 : (-(10 * r)).tdiv 1000 = (-(10 * r)) / 1000 :=
      Int.tdiv_eq_ediv (by omega) (by omega)
    show (10 * r).tdiv 1000 = -((-(10 * r)) / 1000)
    rw [← h2, Int.neg_tdiv, neg_neg]
  have hnf : (StreamConfig.create r ch kb).num_frames =
      ((-((-(10 * r)) / 1000)) % (2 ^ 64 : Int)).toNat := by
    show ((AudioProcessing.kChunkSizeMs * r).tdiv 1000 % sizeTMod).toNat = _
    rw [htd]; rfl
  refine ⟨rfl, rfl, rfl, rfl, ?_, ?_⟩
  · intro h100
    rw [hnf]
    have hk1 : 1 ≤ (-(10 * r)) / 1000 := by omega
    have hk2 : (-(10 * r)) / 1000 ≤ 2147484 := by omega
    have h64 : (2 : Int) ^ 64 = 18446744073709551616 := by norm_num
    have h63 : (2 : Nat) ^ 63 = 9223372036854775808 := by norm_num
    rw [h64, h63]
    omega
  · intro hgt
    rw [hnf]
    have hk0 : (-(10 * r)) / 1000 = 0 := by omega
    rw [hk0]
    rfl

/-- Witness for C10's amended theorem at `sample_rate_hz = -100`: the rate is
stored unchanged and `num_frames()` wraps to at least `2 ^ 63` (concretely
`2 ^ 64 - 1`). -/
theorem streamConfig_negative_rate_wraps_witness :
    (-100 : Int) < 0 ∧ (-214748364 : Int) ≤ -100 ∧
    (StreamConfig.create (-100) 1 false).sample_rate_hz = -100 ∧
    2 ^ 63 ≤ (StreamConfig.create (-100) 1 false).num_frames :=
  ⟨by decide, by decide,
    (streamConfig_negative_rate_wraps (-100) 1 false
      (StreamConfig.create 0 0 false) (by decide) (by decide)).1,
    (streamConfig_negative_rate_wraps (-100) 1 false
      (StreamConfig.create 0 0 false) (by decide) (by decide)).2.2.2.2.1
      (by decide)⟩

/-- C2: each `RuntimeSetting` factory yields a setting tagged with its kind
whose payload getter returns the given value — `CreateCapturePreGain(g)`
requires `g ≥ 1` and yields `kCapturePreGain` with `GetFloat` returning `g`;
`CreateCompressionGainDb(g)` requires `g ∈ [0, 90]` and yields
`kCaptureCompressionGain` with `GetFloat` returning `float(g)`;
`CreateCaptureFixedPostGain(g)` requires `g ∈ [0, 90]` and yields
`kCaptureFixedPostGain` with `GetFloat` returning `g`;
`CreatePlayoutVolumeChange(v)` yields `kPlayoutVolumeChange` with `GetInt`
returning `v` — and out-of-range inputs are rejected by the factory's
validation (the `RTC_DCHECK`s, modelled as `none`). -/
theorem runtimeSetting_factories_tag_and_payload :
    (∀ g : Rat, 1 ≤ g → ∃ s : RuntimeSetting,
      RuntimeSetting.CreateCapturePreGain g = some s ∧
      s.type = .kCapturePreGain ∧ s.GetFloat = some g) ∧
    (∀ g : Rat, g < 1 → RuntimeSetting.CreateCapturePreGain g = none) ∧
    (∀ n : Int, 0 ≤ n → n ≤ 90 → ∃ s : RuntimeSetting,
      RuntimeSetting.CreateCompressionGainDb n = some s ∧
      s.type = .kCaptureCompressionGain ∧ s.GetFloat = some (n : Rat)) ∧
    (∀ n : Int, n < 0 ∨ 90 < n →
      RuntimeSetting.CreateCompressionGainDb n = none) ∧
    (∀ g : Rat, 0 ≤ g → g ≤ 90 → ∃ s : RuntimeSetting,
      RuntimeSetting.CreateCaptureFixedPostGain g = some s ∧
      s.type = .kCaptureFixedPostGain ∧ s.GetFloat = some g) ∧
    (∀ g : Rat, g < 0 ∨ 90 < g →
      RuntimeSetting.CreateCaptureFixedPostGain g = none) ∧
    (∀ v : Int, (RuntimeSetting.CreatePlayoutVolumeChange v).type =
        .kPlayoutVolumeChange ∧
      (RuntimeSetting.CreatePlayoutVolumeChange v).GetInt = some v) := by
  refine ⟨?_, ?_, ?_, ?_, ?_, ?_, fun v => ⟨rfl, rfl⟩⟩
  · intro g hg
    refine ⟨⟨.kCapturePreGain, .float_value g⟩, ?_, rfl, rfl⟩
    rw [RuntimeSetting.CreateCapturePreGain, if_pos hg]
  · intro g hg
    rw [RuntimeSetting.CreateCapturePreGain, if_neg (not_le.mpr hg)]
  · intro n h0 h90
    refine ⟨⟨.kCaptureCompressionGain, .float_value (n : Rat)⟩, ?_, rfl, rfl⟩
    rw [RuntimeSetting.CreateCompressionGainDb, if_pos ⟨h0, h90⟩]
  · intro n h
    rw [RuntimeSetting.CreateCompressionGainDb,
      if_neg (by rintro ⟨h1, h2⟩; omega)]
  · intro g h0 h90
    refine ⟨⟨.kCaptureFixedPostGain, .float_value g⟩, ?_, rfl, rfl⟩
    rw [RuntimeSetting.CreateCaptureFixedPostGain, if_pos ⟨h0, h90⟩]
  · intro g h
    rw [RuntimeSetting.CreateCaptureFixedPostGain,
      if_neg (by rintro ⟨h1, h2⟩; rcases h with h | h <;> linarith)]

/-- Witness for C2 at concrete inputs: `CreateCapturePreGain(2)` succeeds
with kind `kCapturePreGain` and payload `2`, and `CreateCompressionGainDb(100)`
is rejected. -/
theorem runtimeSetting_factories_tag_and_payload_witness :
    (∃ s : RuntimeSetting,
      RuntimeSetting.CreateCapturePreGain 2 = some s ∧
      s.type = .kCapturePreGain ∧ s.GetFloat = some 2) ∧
    RuntimeSetting.CreateCompressionGainDb 100 = none :=
  ⟨runtimeSetting_factories_tag_and_payload.1 2 (by norm_num),
    runtimeSetting_factories_tag_and_payload.2.2.2.1 100
      (Or.inr (by norm_num))⟩

/-- C4: the `AudioProcessing::Error` enumeration is closed (the declared list
is exhaustive), `kNoError` is `0`, the enumerator values are pairwise
distinct, every fatal code is negative, the usage-precondition code
`kStreamParameterNotSetError` is its own fatal enumerator (`-11`), and the
sole warning `kBadStreamParameterWarning` differs from every fatal code. -/
theorem audioProcessing_error_codes_distinct :
    (∀ e : AudioProcessing.Error, e ∈ AudioProcessing.Error.allErrors) ∧
    AudioProcessing.Error.toInt .kNoError = 0 ∧
    (AudioProcessing.Error.allErrors.map AudioProcessing.Error.toInt).Nodup ∧
    (AudioProcessing.Error.fatalErrors.all fun e => e.toInt < 0) = true ∧
    AudioProcessing.Error.toInt .kStreamParameterNotSetError = -11 ∧
    AudioProcessing.Error.kStreamParameterNotSetError ∈
      AudioProcessing.Error.fatalErrors ∧
    (AudioProcessing.Error.fatalErrors.all fun e =>
      AudioProcessing.Error.toInt .kBadStreamParameterWarning != e.toInt) =
      true := by
  decide

/-- C6: the native-rate set of the integer/interleaved path is exactly
`{8000, 16000, 32000, 48000}`: `kNativeSampleRatesHz` lists these four
values, `kNumNativeSampleRates = 4`, and `kMaxNativeSampleRateHz = 48000` is
the maximum element of the list. -/
theorem audioProcessing_native_rates :
    AudioProcessing.kNativeSampleRatesHz = [8000, 16000, 32000, 48000] ∧
    AudioProcessing.kNumNativeSampleRates = 4 ∧
    AudioProcessing.kMaxNativeSampleRateHz = 48000 ∧
    (AudioProcessing.kNativeSampleRatesHz.all fun r =>
      r ≤ AudioProcessing.kMaxNativeSampleRateHz) = true ∧
    AudioProcessing.kMaxNativeSampleRateHz ∈
      AudioProcessing.kNativeSampleRatesHz := by
  decide

/-- C5: `Config` copy assignment is a whole-object replace — after
`d = c`, every field of `d`, in every stage sub-block, equals the
corresponding field of `c`; self-assignment leaves the config unchanged; and
(with `ApplyConfig`/`GetConfig` modelled from the spec as whole-struct store
and verbatim read of the stored config) reading a config back after applying
it yields the applied config. -/
theorem config_assignment_whole_object_replace (d c : Config)
    (st : ApmState) :
    ((Config.assign d c).pipeline = c.pipeline ∧
     (Config.assign d c).pre_amplifier = c.pre_amplifier ∧
     (Config.assign d c).high_pass_filter = c.high_pass_filter ∧
     (Config.assign d c).echo_canceller = c.echo_canceller ∧
     (Config.assign d c).noise_suppression = c.noise_suppression ∧
     (Config.assign d c).voice_detection = c.voice_detection ∧
     (Config.assign d c).gain_controller1 = c.gain_controller1 ∧
     (Config.assign d c).gain_controller2 = c.gain_controller2 ∧
     (Config.assign d c).residual_echo_detector = c.residual_echo_detector ∧
     (Config.assign d c).level_estimation = c.level_estimation) ∧
    Config.assign d d = d ∧
    (st.ApplyConfig c).GetConfig = c :=
  ⟨⟨rfl, rfl, rfl, rfl, rfl, rfl, rfl, rfl, rfl, rfl⟩, rfl, rfl⟩

/-- C7: in a default-constructed `Config` (for any architecture-selected
pipeline rate), `gain_controller1.target_level_dbfs = 3 ∈ [0, 31]`,
`gain_controller1.compression_gain_db = 9 ∈ [0, 90]`, and
`0 ≤ analog_level_minimum = 0 ≤ analog_level_maximum = 255 ≤ 65535`. -/
theorem config_default_gain_controller1_ranges (rate : Int) :
    (Config.default rate).gain_controller1.target_level_dbfs = 3 ∧
    0 ≤ (Config.default rate).gain_controller1.target_level_dbfs ∧
    (Config.default rate).gain_controller1.target_level_dbfs ≤ 31 ∧
    (Config.default rate).gain_controller1.compression_gain_db = 9 ∧
    0 ≤ (Config.default rate).gain_controller1.compression_gain_db ∧
    (Config.default rate).gain_controller1.compression_gain_db ≤ 90 ∧
    (Config.default rate).gain_controller1.analog_level_minimum = 0 ∧
    (Config.default rate).gain_controller1.analog_level_maximum = 255 ∧
    0 ≤ (Config.default rate).gain_controller1.analog_level_minimum ∧
    (Config.default rate).gain_controller1.analog_level_minimum ≤
      (Config.default rate).gain_controller1.analog_level_maximum ∧
    (Config.default rate).gain_controller1.analog_level_maximum ≤ 65535 := by
  have h : (Config.default rate).gain_controller1 =
      ({} : Config.GainController1) := rfl
  rw [h]
  decide

/-- C9: in a default-constructed `Config` (for any architecture-selected
pipeline rate), every stage sub-block's `enabled` flag is `false` except
`residual_echo_detector.enabled`, which is `true`. -/
theorem config_default_enabled_flags (rate : Int) :
    (Config.default rate).pre_amplifier.enabled = false ∧
    (Config.default rate).high_pass_filter.enabled = false ∧
    (Config.default rate).echo_canceller.enabled = false ∧
    (Config.default rate).noise_suppression.enabled = false ∧
    (Config.default rate).voice_detection.enabled = false ∧
    (Config.default rate).gain_controller1.enabled = false ∧
    (Config.default rate).gain_controller2.enabled = false ∧
    (Config.default rate).level_estimation.enabled = false ∧
    (Config.default rate).residual_echo_detector.enabled = true :=
  ⟨rfl, rfl, rfl, rfl, rfl, rfl, rfl, rfl, rfl⟩
